import Mathlib

/-!
A shallow embedding of `src/autolysis.py`, a small CSV-analysis pipeline:
load a dataset with retries, compute summary statistics, render a
correlation heatmap, ask a remote model for insights (with a fallback on
failure), and write a Markdown report.  External libraries (pandas
statistics, the plotting backend, the remote model) are modelled as
oracles or abstract serialisations, as the specification delegates their
internals; the control flow, data flow, string formats and error handling
of the script itself are translated faithfully.
-/

namespace Autolysis

/-- A cell of an in-memory table: either missing (pandas `NaN` / null), a
numeric value, or text.  Cell contents beyond nullness only feed the
abstracted statistics. -/
inductive Cell where
  | null : Cell
  | num (x : Int) : Cell
  | txt (s : String) : Cell
deriving DecidableEq, Repr

/-- A named, typed column of a table.  `numeric` records whether pandas
inferred a numeric dtype for the column (what `select_dtypes(include=
['number'])` selects). -/
structure Column where
  name : String
  numeric : Bool
  cells : List Cell
deriving DecidableEq, Repr

/-- An in-memory table (a pandas `DataFrame`): a row count shared by all
columns, and the list of columns in order. -/
structure Table where
  nrows : Nat
  cols : List Column
deriving DecidableEq, Repr

/-- Well-formedness of a `DataFrame`: every column holds one cell per row. -/
def Table.Wf (t : Table) : Prop := ∀ c ∈ t.cols, c.cells.length = t.nrows

/-- `pd.isnull` on a single cell. -/
def Cell.isNull : Cell → Bool
  | .null => true
  | _ => false

/-- `data[col].isnull().sum()`: the number of null cells in a column. -/
def Column.nullCount (c : Column) : Nat := (c.cells.filter Cell.isNull).length

/-- The `count` statistic of `describe`: number of non-null cells. -/
def Column.nonNullCount (c : Column) : Nat :=
  (c.cells.filter (fun x => !x.isNull)).length

/-- Total number of null cells in the whole table. -/
def Table.totalNulls (t : Table) : Nat := (t.cols.map Column.nullCount).sum

/-- Python `dict` insertion: assigning to an existing key updates its value
in place (the key keeps its position), a fresh key is appended.  Keys of a
Python dict are unique, so replacing the first occurrence is exact. -/
def pyDictInsert {α : Type} : List (String × α) → String → α → List (String × α)
  | [], k, v => [(k, v)]
  | q :: d, k, v => if q.1 == k then (k, v) :: d else q :: pyDictInsert d k v

/-- Building a Python `dict` from a sequence of key/value pairs, as
`Series.to_dict()` does: later occurrences of a key overwrite earlier
ones. -/
def pyDict {α : Type} (l : List (String × α)) : List (String × α) :=
  l.foldl (fun d p => pyDictInsert d p.1 p.2) []

/-- The Analysis Record produced by `analyze_data`: shape, per-column
dtypes, per-column missing-value counts, and per-column summary
statistics.  The statistics payload is abstracted to the `count` entry of
`describe(include='all')`; the spec delegates statistical content to the
external numeric library. -/
structure Analysis where
  shape : Nat × Nat
  columns : List (String × Bool)
  missing_values : List (String × Nat)
  summary_stats : List (String × Nat)
deriving DecidableEq, Repr

/-- `analyze_data(data)` from `src/autolysis.py`: shape, `dtypes.to_dict()`,
`isnull().sum().to_dict()`, and `describe(include='all').to_dict()`
(abstracted as described at `Analysis`). -/
def analyze_data (t : Table) : Analysis :=
  { shape := (t.nrows, t.cols.length)
  , columns := pyDict (t.cols.map (fun c => (c.name, c.numeric)))
  , missing_values := pyDict (t.cols.map (fun c => (c.name, c.nullCount)))
  , summary_stats := pyDict (t.cols.map (fun c => (c.name, c.nonNullCount))) }

/-! ### Python dict semantics under distinct keys -/

theorem pyDictInsert_of_not_mem {α : Type} (d : List (String × α)) (k : String)
    (v : α) (h : k ∉ d.map Prod.fst) : pyDictInsert d k v = d ++ [(k, v)] := by
  induction d with
  | nil => rfl
  | cons q rest ih =>
    have hq : (q.1 == k) = false := by
      simp only [beq_eq_false_iff_ne]
      intro he
      exact h (by simp [he])
    have hrest : k ∉ rest.map Prod.fst := fun hm => h (by simp [hm])
    simp [pyDictInsert, hq, ih hrest]

theorem pyDict_go_eq_append {α : Type} (l : List (String × α)) :
    ∀ d : List (String × α),
      (d.map Prod.fst ++ l.map Prod.fst).Nodup →
      l.foldl (fun d p => pyDictInsert d p.1 p.2) d = d ++ l := by
  induction l with
  | nil => intro d _; simp
  | cons p l ih =>
    intro d hnd
    have hk : p.1 ∉ d.map Prod.fst := by
      intro hmem
      have : (d.map Prod.fst ++ p.1 :: l.map Prod.fst).Nodup := by
        simpa using hnd
      rcases List.nodup_append.mp this with ⟨_, _, hdisj⟩
      exact hdisj hmem (by simp)
    have hstep : pyDictInsert d p.1 p.2 = d ++ [p] := by
      simpa using pyDictInsert_of_not_mem d p.1 p.2 hk
    have hnd' : ((d ++ [p]).map Prod.fst ++ l.map Prod.fst).Nodup := by
      simp only [List.map_append, List.map_cons, List.map_nil] at hnd ⊢
      simpa [List.append_assoc] using hnd
    calc (p :: l).foldl (fun d q => pyDictInsert d q.1 q.2) d
        = l.foldl (fun d q => pyDictInsert d q.1 q.2) (d ++ [p]) := by
          simp [List.foldl_cons, hstep]
      _ = (d ++ [p]) ++ l := ih (d ++ [p]) hnd'
      _ = d ++ p :: l := by simp

/-- With pairwise-distinct keys (the case for any table loaded by
`pd.read_csv`, which de-duplicates header names), `to_dict` keeps exactly
the input pairs in order. -/
theorem pyDict_eq_self {α : Type} (l : List (String × α))
    (h : (l.map Prod.fst).Nodup) : pyDict l = l := by
  have := pyDict_go_eq_append l [] (by simpa using h)
  simpa [pyDict] using this

/-! ### Filesystem model and string containment -/

/-- A flat filesystem: a finite map from paths to file contents.  Writing
to an existing path overwrites its content (same overwrite semantics as
`pyDictInsert`). -/
abbrev FS := List (String × String)

/-- `open(path, "w")` followed by writes: store `content` at `path`,
overwriting any existing file there. -/
def fsWrite (fs : FS) (path content : String) : FS :=
  pyDictInsert fs path content

/-- Read a file back from the filesystem model. -/
def fsGet (fs : FS) (path : String) : Option String :=
  (fs.find? (fun q => q.1 == path)).map Prod.snd

/-- `needle` occurs contiguously inside `hay`. -/
def strContains (needle hay : String) : Prop := needle.data <:+: hay.data

instance (needle hay : String) : Decidable (strContains needle hay) := by
  unfold strContains; infer_instance

theorem strContains_append_left {s t : String} (u : String)
    (h : strContains s t) : strContains s (u ++ t) := by
  unfold strContains at h ⊢
  rw [String.data_append]
  exact h.trans (List.suffix_append u.data t.data).isInfix

theorem strContains_append_right {s t : String} (u : String)
    (h : strContains s t) : strContains s (t ++ u) := by
  unfold strContains at h ⊢
  rw [String.data_append]
  exact h.trans (List.prefix_append t.data u.data).isInfix

/-! ### Report writer (`write_readme`) -/

/-- The fixed fallback Insight Text, shared verbatim by `ask_llm`'s
exception handler and `write_readme`'s `None` substitution. -/
def fallbackInsight : String :=
  "No insights generated due to an error in LLM communication."

/-- Python `str` of the shape tuple `(nrows, ncols)`. -/
def shapeStr (sh : Nat × Nat) : String :=
  "(" ++ toString sh.1 ++ ", " ++ toString sh.2 ++ ")"

/-- One line of the missing-values block: `f.write(f"  - {col}: {val}\n")`. -/
def mvLine (col : String) (val : Nat) : String :=
  "  - " ++ col ++ ": " ++ toString val ++ "\n"

/-- The `for col, val in analysis['missing_values'].items()` loop: one
line per entry, in order. -/
def mvLines : List (String × Nat) → String
  | [] => ""
  | (c, v) :: rest => mvLine c v ++ mvLines rest

/-- The full content written to `README.md` by the sequence of
`f.write` calls in `write_readme`, given the (already substituted)
insight text. -/
def readmeContent (a : Analysis) (insights : String) : String :=
  "# Automated Analysis\n\n" ++
  "## Summary\n" ++
  ("- Shape: " ++ shapeStr a.shape ++ "\n") ++
  "- Missing Values:\n" ++
  mvLines a.missing_values ++
  "\n## Insights\n" ++
  insights

/-- `write_readme(analysis, insights, output_dir)`: substitutes the
fallback string when `insights is None`, then writes the report to
`<output_dir>/README.md`, overwriting any existing file. -/
def write_readme (a : Analysis) (insights : Option String) (outputDir : String)
    (fs : FS) : FS :=
  fsWrite fs (outputDir ++ "/README.md")
    (readmeContent a (insights.getD fallbackInsight))

/-! ### Insight requester (`ask_llm`) -/

/-- `ask_llm(prompt)`: performs exactly one chat-completion call (the
remote endpoint is the oracle `llm`, which yields either a completion or
an exception message); on any failure it catches the error and returns
the fixed fallback string.  Returns the insight text together with the
number of remote calls made. -/
def ask_llm (llm : String → Except String String) (prompt : String) :
    String × Nat :=
  match llm prompt with
  | .ok reply => (reply, 1)
  | .error _ => (fallbackInsight, 1)

/-! ### Visualizer (`create_visualizations`) -/

/-- `data.select_dtypes(include=['number'])`: the sub-table of
numeric-dtype columns, keeping the row index. -/
def numericData (t : Table) : Table :=
  { nrows := t.nrows, cols := t.cols.filter (fun c => c.numeric) }

/-- pandas `DataFrame.empty`: true when any axis has length zero, i.e.
the frame holds no elements. -/
def Table.isEmptyDF (t : Table) : Bool :=
  t.nrows == 0 || t.cols.isEmpty

/-- The fixed output path of the heatmap:
`f"{output_dir}/correlation_heatmap.png"`. -/
def heatmapPath (outputDir : String) : String :=
  outputDir ++ "/correlation_heatmap.png"

/-- The rendered heatmap image for the numeric sub-table.  Plotting
fidelity is delegated to the external charting library, so the image is
abstracted as a deterministic serialisation of the correlated columns. -/
def heatmapImage (nd : Table) : String :=
  "heatmap[" ++ String.intercalate "," (nd.cols.map Column.name) ++ "]"

/-- Result of a `create_visualizations` run: the filesystem afterwards,
the list of image paths written, and the log lines printed. -/
structure VizResult where
  fs : FS
  written : List String
  logs : List String
deriving DecidableEq, Repr

/-- `create_visualizations(data, output_dir)`: selects numeric columns;
if that frame is empty, logs and returns without writing; otherwise
renders the correlation heatmap and saves it to the fixed path,
overwriting any existing file. -/
def create_visualizations (t : Table) (outputDir : String) (fs : FS) :
    VizResult :=
  let nd := numericData t
  if nd.isEmptyDF then
    { fs := fs, written := []
    , logs := ["No numeric columns available for correlation heatmap."] }
  else
    { fs := fsWrite fs (heatmapPath outputDir) (heatmapImage nd)
    , written := [heatmapPath outputDir], logs := [] }

/-! ### Loader (`load_dataset`) -/

/-- The tenacity combinator `retry(stop=stop_after_attempt(n),
wait=wait_fixed(w))` around a fallible read.  `read i` is the outcome of
the i-th attempt (an oracle covering I/O and parse behaviour of
`pd.read_csv`).  Returns the final outcome, the number of attempts made,
and the list of fixed sleeps taken between attempts.  The first success
is returned immediately; after the final attempt fails, the failure is
raised to the caller. -/
def retryFixed {ε α : Type} (wait : Nat) (read : Nat → Except ε α) :
    Nat → Nat → Except ε α × Nat × List Nat
  | i, 0 => (read i, 1, [])
  | i, budget + 1 =>
    match read i with
    | .ok a => (.ok a, 1, [])
    | .error _ =>
      let rest := retryFixed wait read (i + 1) budget
      (rest.1, rest.2.1 + 1, wait :: rest.2.2)

/-- `load_dataset(file_path)` under
`@retry(stop=stop_after_attempt(3), wait=wait_fixed(2))`: up to 3
attempts total, sleeping 2 seconds between attempts. -/
def load_dataset (read : Nat → Except String Table) :
    Except String Table × Nat × List Nat :=
  retryFixed 2 read 0 2

/-! ### Orchestrator (`main`) and CLI entry point -/

/-- The pipeline steps, in the order `main` may perform them. -/
inductive Event where
  | load | analyze | visualize | prompt | llm | readme
deriving DecidableEq, Repr

/-- Serialisation of the summary statistics as interpolated into the
prompt f-string. -/
def statsStr (stats : List (String × Nat)) : String :=
  String.intercalate ", "
    (stats.map (fun p => p.1 ++ ": " ++ toString p.2))

/-- The prompt f-string built by `main` from the Analysis Record. -/
def buildPrompt (a : Analysis) : String :=
  "\nBased on the following analysis and visualizations, provide insights:\n" ++
  "- Summary Statistics: " ++ statsStr a.summary_stats ++ "\n" ++
  "- Visualizations: [Insert chart descriptions or file paths]\n"

/-- `main(file_path, output_dir)`: Loader, Analyzer, Visualizer, prompt
construction, Insight Requester, Report Writer, in that order, each
output passed forward.  An uncaught Loader failure propagates (the
`Except.error` case) and no later step runs.  Returns the outcome, the
filesystem afterwards, and the trace of completed steps. -/
def main (read : Nat → Except String Table)
    (llm : String → Except String String) (outputDir : String) (fs : FS) :
    Except String Unit × FS × List Event :=
  match (load_dataset read).1 with
  | .error e => (.error e, fs, [])
  | .ok data =>
    let analysis := analyze_data data
    let viz := create_visualizations data outputDir fs
    let prompt := buildPrompt analysis
    let insights := (ask_llm llm prompt).1
    let fs2 := write_readme analysis (some insights) outputDir viz.fs
    (.ok (), fs2,
      [.load, .analyze, .visualize, .prompt, .llm, .readme])

/-- The environment-variable name holding the access token. -/
def tokenVar : String := "AIPROXY_TOKEN"

/-- The message of the `EnvironmentError` raised at import time when the
token is unset. -/
def tokenErrorMsg : String :=
  "AIPROXY_TOKEN environment variable not set. Please set it before running the script."

/-- The usage line printed before `sys.exit(1)` on a wrong argument
count. -/
def usageMsg : String :=
  "Usage: python autolysis.py <input_csv_path> <output_dir>"

/-- Outcome of one process run of the script. -/
inductive ProcResult where
  | envError (msg : String)
  | usageError (exitCode : Nat) (msg : String)
  | loadError (e : String)
  | completed
deriving DecidableEq, Repr

/-- One full process run: module import first checks the token
environment variable and aborts if unset; the `__main__` block then
checks `len(sys.argv) != 3` and exits with status 1 and a usage message;
only then does `main` run.  `argv` includes the script name, so two
positional arguments mean length 3.  Returns the outcome, the final
filesystem, and the pipeline steps performed. -/
def script (env : String → Option String) (argv : List String)
    (read : Nat → Except String Table)
    (llm : String → Except String String) (fs : FS) :
    ProcResult × FS × List Event :=
  match env tokenVar with
  | none => (.envError tokenErrorMsg, fs, [])
  | some _ =>
    if argv.length == 3 then
      let outputDir := argv.getD 2 ""
      match main read llm outputDir fs with
      | (.error e, fs2, evs) => (.loadError e, fs2, evs)
      | (.ok _, fs2, evs) => (.completed, fs2, evs)
    else
      (.usageError 1 usageMsg, fs, [])

/-! ### Filesystem and report lemmas -/

/-- Writing a file stores its content at the path, overwriting. -/
theorem fsGet_fsWrite (fs : FS) (p c : String) :
    fsGet (fsWrite fs p c) p = some c := by
  induction fs with
  | nil => simp [fsWrite, pyDictInsert, fsGet]
  | cons q rest ih =>
    by_cases hq : q.1 = p
    · simp [fsWrite, pyDictInsert, fsGet, hq]
    · have hq' : (q.1 == p) = false := by simp [hq]
      simpa [fsWrite, pyDictInsert, fsGet, List.find?, hq'] using ih

/-- Every entry of the missing-values mapping yields its own line in the
missing-values block. -/
theorem strContains_mvLines {c : String} {v : Nat} :
    ∀ {l : List (String × Nat)}, (c, v) ∈ l →
      strContains (mvLine c v) (mvLines l) := by
  intro l hmem
  induction l with
  | nil => cases hmem
  | cons p rest ih =>
    rcases List.mem_cons.mp hmem with heq | htail
    · subst heq
      exact strContains_append_right (mvLines rest)
        (List.infix_refl (mvLine c v).data)
    · exact strContains_append_left (mvLine p.1 p.2) (ih htail)

/-! ### Example tables -/

/-- The spec's worked example: column `a` with no nulls, column `b` with
2 nulls out of 5 rows. -/
def exTable : Table :=
  { nrows := 5
  , cols :=
      [ { name := "a", numeric := true
        , cells := [.num 1, .num 2, .num 3, .num 4, .num 5] }
      , { name := "b", numeric := true
        , cells := [.num 1, .num 2, .null, .num 4, .null] } ] }

/-- A table with text columns only (no numeric dtype). -/
def textTable : Table :=
  { nrows := 2
  , cols := [ { name := "city", numeric := false
              , cells := [.txt "x", .txt "y"] } ] }

/-- A table with two numeric columns and zero rows. -/
def emptyNumTable : Table :=
  { nrows := 0
  , cols := [ { name := "x", numeric := true, cells := [] }
            , { name := "y", numeric := true, cells := [] } ] }

/-! ### Claim theorems -/

/-- **C1**: for every table with at least one column (and the distinct
header names `pd.read_csv` guarantees), the missing-value mapping of the
Analysis Record has exactly one entry per column — namely each column's
null count — every entry is a non-negative integer, and the entries sum
to the total number of null cells in the table. -/
theorem analyze_data_missing_values_complete (t : Table)
    (_hcols : t.cols ≠ []) (hnd : (t.cols.map Column.name).Nodup) :
    ((analyze_data t).missing_values.length = t.cols.length ∧
      ∀ c ∈ t.cols, (c.name, c.nullCount) ∈ (analyze_data t).missing_values) ∧
    (∀ p ∈ (analyze_data t).missing_values, 0 ≤ p.2) ∧
    ((analyze_data t).missing_values.map Prod.snd).sum = t.totalNulls := by
  have hkeys : ((t.cols.map (fun c => (c.name, c.nullCount))).map Prod.fst).Nodup := by
    simpa [List.map_map, Function.comp] using hnd
  have hmv : (analyze_data t).missing_values
      = t.cols.map (fun c => (c.name, c.nullCount)) := by
    simp [analyze_data, pyDict_eq_self _ hkeys]
  refine ⟨⟨?_, ?_⟩, ?_, ?_⟩
  · simp [hmv]
  · intro c hc
    rw [hmv]
    exact List.mem_map_of_mem _ hc
  · intro p _
    exact Nat.zero_le _
  · simp only [hmv, Table.totalNulls, List.map_map]
    rfl

/-- Witness for C1 at the example table. -/
theorem analyze_data_missing_values_complete_witness :
    ((analyze_data exTable).missing_values.length = exTable.cols.length ∧
      ∀ c ∈ exTable.cols,
        (c.name, c.nullCount) ∈ (analyze_data exTable).missing_values) ∧
    (∀ p ∈ (analyze_data exTable).missing_values, 0 ≤ p.2) ∧
    ((analyze_data exTable).missing_values.map Prod.snd).sum
      = exTable.totalNulls :=
  analyze_data_missing_values_complete exTable (by decide) (by decide)

/-- **C3**: on a file whose read always fails, `load_dataset` makes
exactly 3 attempts, sleeping the fixed 2 seconds between consecutive
attempts, then raises the final failure to the caller — the outcome is an
error, never a (partial) table. -/
theorem load_dataset_retries_three_then_raises
    (read : Nat → Except String Table) (e : Nat → String)
    (h : ∀ i, read i = .error (e i)) :
    load_dataset read = (.error (e 2), 3, [2, 2]) := by
  simp [load_dataset, retryFixed, h 0, h 1, h 2]

/-- Witness for C3 on an always-failing read. -/
theorem load_dataset_retries_three_then_raises_witness :
    load_dataset (fun _ => .error "parse error")
      = (.error "parse error", 3, [2, 2]) :=
  load_dataset_retries_three_then_raises
    (fun _ => .error "parse error") (fun _ => "parse error") (fun _ => rfl)

/-- **C5**: on a table with zero numeric-typed columns,
`create_visualizations` logs the skip message and returns, leaving the
filesystem untouched and writing no image; being a total function, it
raises nothing. -/
theorem create_visualizations_skips_without_numeric (t : Table)
    (outputDir : String) (fs : FS) (h : (numericData t).cols = []) :
    create_visualizations t outputDir fs =
      { fs := fs, written := []
      , logs := ["No numeric columns available for correlation heatmap."] } := by
  have hempty : (numericData t).isEmptyDF = true := by
    simp [Table.isEmptyDF, h]
  simp [create_visualizations, hempty]

/-- Witness for C5 at the text-only table. -/
theorem create_visualizations_skips_without_numeric_witness :
    create_visualizations textTable "out" [] =
      { fs := [], written := []
      , logs := ["No numeric columns available for correlation heatmap."] } :=
  create_visualizations_skips_without_numeric textTable "out" [] (by decide)

/-- **C10**: on a table that has numeric columns but zero rows,
`create_visualizations` still skips — `DataFrame.empty` tests for absence
of elements, and a zero-row numeric frame has none — so no image is
written and the function returns after logging. -/
theorem create_visualizations_skips_empty_numeric (t : Table)
    (outputDir : String) (fs : FS) (_hcols : (numericData t).cols ≠ [])
    (hrows : t.nrows = 0) :
    create_visualizations t outputDir fs =
      { fs := fs, written := []
      , logs := ["No numeric columns available for correlation heatmap."] } := by
  have hempty : (numericData t).isEmptyDF = true := by
    simp [Table.isEmptyDF, numericData, hrows]
  simp [create_visualizations, hempty]

/-- Witness for C10 at the zero-row numeric table. -/
theorem create_visualizations_skips_empty_numeric_witness :
    create_visualizations emptyNumTable "out" [] =
      { fs := [], written := []
      , logs := ["No numeric columns available for correlation heatmap."] } :=
  create_visualizations_skips_empty_numeric emptyNumTable "out" []
    (by decide) (by decide)

/-- **C7**: for every Analysis Record, output directory and prior
filesystem, writing the report with an absent insight text produces
exactly the same result as writing it with `ask_llm`'s fixed fallback
string: the `None` insight is substituted with that same string. -/
theorem write_readme_none_eq_fallback (a : Analysis) (outputDir : String)
    (fs : FS) :
    write_readme a none outputDir fs
      = write_readme a (some fallbackInsight) outputDir fs := rfl

/-- Containment in the missing-values block lifts to the whole report. -/
theorem strContains_readme (a : Analysis) (ins : String) {s : String}
    (h : strContains s (mvLines a.missing_values)) :
    strContains s (readmeContent a ins) := by
  unfold readmeContent
  apply strContains_append_right
  apply strContains_append_right
  apply strContains_append_left
  exact h

/-- The insight text is embedded verbatim at the end of the report. -/
theorem strContains_insights (a : Analysis) (ins : String) :
    strContains ins (readmeContent a ins) := by
  unfold readmeContent
  exact strContains_append_left _ (List.infix_refl ins.data)

/-- **C2**: the report enumerates every column of the table in the
missing-values block with that column's count (zero included), and at the
spec's example table the report contains the lines `- a: 0` and `- b: 2`
(rendered with the block's two-space indentation). -/
theorem write_readme_enumerates_missing_values (t : Table) (ins : String)
    (hnd : (t.cols.map Column.name).Nodup) :
    (∀ c ∈ t.cols,
      strContains (mvLine c.name c.nullCount)
        (readmeContent (analyze_data t) ins)) ∧
    strContains "- a: 0\n" (readmeContent (analyze_data exTable) ins) ∧
    strContains "- b: 2\n" (readmeContent (analyze_data exTable) ins) := by
  have hkeys :
      ((t.cols.map (fun c => (c.name, c.nullCount))).map Prod.fst).Nodup := by
    simpa [List.map_map, Function.comp] using hnd
  have hmv : (analyze_data t).missing_values
      = t.cols.map (fun c => (c.name, c.nullCount)) := by
    simp [analyze_data, pyDict_eq_self _ hkeys]
  refine ⟨?_, ?_, ?_⟩
  · intro c hc
    apply strContains_readme
    rw [hmv]
    exact strContains_mvLines
      (List.mem_map_of_mem (fun c => (c.name, c.nullCount)) hc)
  · exact strContains_readme _ _ (by decide)
  · exact strContains_readme _ _ (by decide)

/-- Witness for C2 at the example table and the fallback insight text. -/
theorem write_readme_enumerates_missing_values_witness :
    (∀ c ∈ exTable.cols,
      strContains (mvLine c.name c.nullCount)
        (readmeContent (analyze_data exTable) fallbackInsight)) ∧
    strContains "- a: 0\n" (readmeContent (analyze_data exTable) fallbackInsight) ∧
    strContains "- b: 2\n" (readmeContent (analyze_data exTable) fallbackInsight) :=
  write_readme_enumerates_missing_values exTable fallbackInsight (by decide)

/-- **C4**: if the remote chat-completion call fails with any error,
`ask_llm` catches it and returns the fixed fallback string after exactly
one call (no retry); and `write_readme` then stores a report embedding
that exact fallback string verbatim in its Insights section. -/
theorem ask_llm_fallback_on_failure
    (llm : String → Except String String) (prompt : String) (e : String)
    (h : llm prompt = .error e) :
    ask_llm llm prompt = (fallbackInsight, 1) ∧
    ∀ (a : Analysis) (outputDir : String) (fs : FS),
      fsGet (write_readme a (some (ask_llm llm prompt).1) outputDir fs)
          (outputDir ++ "/README.md")
        = some (readmeContent a fallbackInsight) ∧
      strContains fallbackInsight (readmeContent a (ask_llm llm prompt).1) := by
  have h1 : ask_llm llm prompt = (fallbackInsight, 1) := by
    simp [ask_llm, h]
  refine ⟨h1, ?_⟩
  intro a outputDir fs
  rw [h1]
  exact ⟨fsGet_fsWrite fs _ _, strContains_insights a fallbackInsight⟩

/-- Witness for C4 on an always-failing remote call. -/
theorem ask_llm_fallback_on_failure_witness :
    ask_llm (fun _ => .error "418") "hi" = (fallbackInsight, 1) ∧
    ∀ (a : Analysis) (outputDir : String) (fs : FS),
      fsGet (write_readme a (some (ask_llm (fun _ => .error "418") "hi").1)
          outputDir fs) (outputDir ++ "/README.md")
        = some (readmeContent a fallbackInsight) ∧
      strContains fallbackInsight
        (readmeContent a (ask_llm (fun _ => .error "418") "hi").1) :=
  ask_llm_fallback_on_failure (fun _ => .error "418") "hi" "418" rfl

/-- **C6 counterexample**: a table with two numeric columns but zero rows
satisfies the claim's antecedent, yet `create_visualizations` writes no
image file at all (the numeric frame is empty, so the skip branch runs). -/
theorem create_visualizations_two_numeric_zero_rows_cex :
    2 ≤ (numericData emptyNumTable).cols.length ∧
    (create_visualizations emptyNumTable "out" []).written = [] ∧
    (create_visualizations emptyNumTable "out" []).written
      ≠ [heatmapPath "out"] := by decide

/-- **C6 (amended)**: for every table with at least 2 numeric columns and
at least one row, `create_visualizations` writes exactly one image file,
at the fixed path `<output_dir>/correlation_heatmap.png`, and a second
run writes the same single path, overwriting the file there. -/
theorem create_visualizations_heatmap_fixed_path (t : Table)
    (outputDir : String) (fs : FS)
    (h2 : 2 ≤ (numericData t).cols.length) (hr : 0 < t.nrows) :
    (create_visualizations t outputDir fs).written = [heatmapPath outputDir] ∧
    fsGet (create_visualizations t outputDir fs).fs (heatmapPath outputDir)
      = some (heatmapImage (numericData t)) ∧
    (create_visualizations t outputDir
        (create_visualizations t outputDir fs).fs).written
      = [heatmapPath outputDir] ∧
    fsGet (create_visualizations t outputDir
        (create_visualizations t outputDir fs).fs).fs (heatmapPath outputDir)
      = some (heatmapImage (numericData t)) := by
  have hcne : (numericData t).cols ≠ [] := by
    intro hnil
    rw [hnil] at h2
    simp at h2
  have hempty : (numericData t).isEmptyDF = false := by
    have hnr : (numericData t).nrows = t.nrows := rfl
    simp [Table.isEmptyDF, hnr, List.isEmpty_iff, hcne]
    omega
  have hcv : ∀ g : FS, create_visualizations t outputDir g =
      { fs := fsWrite g (heatmapPath outputDir) (heatmapImage (numericData t))
      , written := [heatmapPath outputDir], logs := [] } := by
    intro g
    simp [create_visualizations, hempty]
  rw [hcv fs, hcv _]
  exact ⟨rfl, fsGet_fsWrite fs _ _, rfl, fsGet_fsWrite _ _ _⟩

/-- Witness for the amended C6 at a one-row table with two numeric
columns. -/
theorem create_visualizations_heatmap_fixed_path_witness :
    (create_visualizations (Table.mk 1
        [Column.mk "x" true [.num 1], Column.mk "y" true [.num 2]])
        "out" []).written = [heatmapPath "out"] ∧
    fsGet (create_visualizations (Table.mk 1
        [Column.mk "x" true [.num 1], Column.mk "y" true [.num 2]])
        "out" []).fs (heatmapPath "out")
      = some (heatmapImage (numericData (Table.mk 1
        [Column.mk "x" true [.num 1], Column.mk "y" true [.num 2]]))) ∧
    (create_visualizations (Table.mk 1
        [Column.mk "x" true [.num 1], Column.mk "y" true [.num 2]])
        "out" (create_visualizations (Table.mk 1
        [Column.mk "x" true [.num 1], Column.mk "y" true [.num 2]])
        "out" []).fs).written = [heatmapPath "out"] ∧
    fsGet (create_visualizations (Table.mk 1
        [Column.mk "x" true [.num 1], Column.mk "y" true [.num 2]])
        "out" (create_visualizations (Table.mk 1
        [Column.mk "x" true [.num 1], Column.mk "y" true [.num 2]])
        "out" []).fs).fs (heatmapPath "out")
      = some (heatmapImage (numericData (Table.mk 1
        [Column.mk "x" true [.num 1], Column.mk "y" true [.num 2]]))) :=
  create_visualizations_heatmap_fixed_path
    (Table.mk 1 [Column.mk "x" true [.num 1], Column.mk "y" true [.num 2]])
    "out" [] (by decide) (by decide)

/-- **C8**: with the access-token environment variable unset, the process
aborts at import time before any work (no pipeline step runs, the
filesystem is untouched); with the token set but an argument count other
than two positionals, it exits with the non-zero status 1 and the usage
message, again before any work. -/
theorem script_aborts_on_bad_startup (env : String → Option String)
    (argv : List String) (read : Nat → Except String Table)
    (llm : String → Except String String) (fs : FS) :
    (env tokenVar = none →
      script env argv read llm fs = (.envError tokenErrorMsg, fs, [])) ∧
    (∀ tok, env tokenVar = some tok → argv.length ≠ 3 →
      script env argv read llm fs = (.usageError 1 usageMsg, fs, []) ∧
      (1 : Nat) ≠ 0) := by
  constructor
  · intro h
    simp [script, h]
  · intro tok h hlen
    have hb : (argv.length == 3) = false := by simpa using hlen
    refine ⟨?_, by decide⟩
    simp [script, h, hb]

/-- Witness for C8: a run without the token, and a run with the token but
only one command-line argument. -/
theorem script_aborts_on_bad_startup_witness :
    script (fun _ => none) ["autolysis.py"] (fun _ => .error "e")
        (fun _ => .error "e") [] = (.envError tokenErrorMsg, [], []) ∧
    (script (fun _ => some "tok") ["autolysis.py"] (fun _ => .error "e")
        (fun _ => .error "e") [] = (.usageError 1 usageMsg, [], []) ∧
      (1 : Nat) ≠ 0) :=
  ⟨(script_aborts_on_bad_startup (fun _ => none) ["autolysis.py"]
      (fun _ => .error "e") (fun _ => .error "e") []).1 rfl,
   (script_aborts_on_bad_startup (fun _ => some "tok") ["autolysis.py"]
      (fun _ => .error "e") (fun _ => .error "e") []).2 "tok" rfl (by decide)⟩

/-- **C9**: when the first read succeeds, `main` runs Loader, Analyzer,
Visualizer, prompt construction, Insight Requester, Report Writer in that
fixed order, each output passed forward (the final filesystem is the
report write applied on top of the visualizer's write, with the analysis
and the insight derived from it); when the Loader fails on every attempt,
`main` propagates the error, performs no later step, and leaves the
filesystem untouched — neither heatmap nor report is written. -/
theorem main_pipeline_order (read : Nat → Except String Table)
    (llm : String → Except String String) (outputDir : String) (fs : FS) :
    (∀ data : Table, read 0 = .ok data →
      main read llm outputDir fs =
        (.ok (),
         write_readme (analyze_data data)
           (some (ask_llm llm (buildPrompt (analyze_data data))).1) outputDir
           (create_visualizations data outputDir fs).fs,
         [.load, .analyze, .visualize, .prompt, .llm, .readme])) ∧
    (∀ e : Nat → String, (∀ i, read i = .error (e i)) →
      main read llm outputDir fs = (.error (e 2), fs, [])) := by
  constructor
  · intro data h
    simp [main, load_dataset, retryFixed, h]
  · intro e h
    simp [main, load_dataset, retryFixed, h 0, h 1, h 2]

/-- Witness for C9: a run whose load succeeds immediately, and a run
whose load always fails. -/
theorem main_pipeline_order_witness :
    main (fun _ => .ok exTable) (fun _ => .ok "fine") "out" [] =
      (.ok (),
       write_readme (analyze_data exTable)
         (some (ask_llm (fun _ => .ok "fine")
           (buildPrompt (analyze_data exTable))).1) "out"
         (create_visualizations exTable "out" []).fs,
       [.load, .analyze, .visualize, .prompt, .llm, .readme]) ∧
    main (fun _ => .error "io") (fun _ => .ok "fine") "out" [] =
      (.error "io", [], []) :=
  ⟨(main_pipeline_order (fun _ => .ok exTable) (fun _ => .ok "fine")
      "out" []).1 exTable rfl,
   (main_pipeline_order (fun _ => .error "io") (fun _ => .ok "fine")
      "out" []).2 (fun _ => "io") (fun _ => rfl)⟩

end Autolysis
